import Mathlib

/-!
# Verification of `feature_rollout_analysis.py`

Shallow embedding of the dependency-free statistical and imaging core of
`feature_rollout_simulation/feature_rollout_analysis.py`:

* the hand-rolled Welch's t-test (`_manual_welchs_ttest`),
* the Student-t PDF/CDF evaluated by Simpson's rule
  (`_student_t_coeff`, `_student_t_pdf`, `_student_t_cdf`,
  `_two_tailed_p_value`),
* the byte-exact PNG writer (`_write_png`), and
* the bitmap font and text renderer of `_fallback_plot`
  (`FONT`, `draw_text`).

Real-valued Python floats are embedded as `ℝ`; byte strings as `List ℕ`
with each entry a byte value; Python exceptions as `Except`.  The zlib
`compress` routine is an external library call, so the PNG writer is
parameterised over an arbitrary compression function; everything the code
itself does (chunk framing, CRC-32, scanline serialisation) is embedded
concretely.
-/

namespace FeatureRollout

/-! ## Byte-level helpers: big-endian words and CRC-32 -/

/-- `n.to_bytes(4, "big")` / `struct.pack(">I", n)`: the four big-endian
bytes of a 32-bit value.  (Python raises for `n ≥ 2^32`; callers stay
below that bound.) -/
def be32 (n : ℕ) : List ℕ :=
  [n / 2 ^ 24 % 256, n / 2 ^ 16 % 256, n / 2 ^ 8 % 256, n % 256]

/-- One bit step of CRC-32 with the reflected polynomial `0xEDB88320`:
shift right, conditionally XOR the polynomial when the low bit is set. -/
def crc32Step (c : ℕ) : ℕ :=
  if c % 2 = 1 then (c / 2) ^^^ 0xEDB88320 else c / 2

/-- Process one byte of a CRC-32 computation: XOR the byte into the low
bits and run eight bit steps. -/
def crc32Update (c b : ℕ) : ℕ :=
  crc32Step^[8] (c ^^^ b)

/-- `zlib.crc32(data) & 0xFFFFFFFF`: the standard PNG/zlib CRC-32 of a
byte sequence. -/
def crc32 (data : List ℕ) : ℕ :=
  (data.foldl crc32Update 0xFFFFFFFF) ^^^ 0xFFFFFFFF

/-! ## The PNG writer (`_write_png`) -/

/-- The fixed 8-byte PNG signature written first. -/
def pngSignature : List ℕ := [0x89, 0x50, 0x4E, 0x47, 0x0D, 0x0A, 0x1A, 0x0A]

/-- The 4 ASCII bytes of the chunk type `IHDR`. -/
def ihdrType : List ℕ := [0x49, 0x48, 0x44, 0x52]

/-- The 4 ASCII bytes of the chunk type `IDAT`. -/
def idatType : List ℕ := [0x49, 0x44, 0x41, 0x54]

/-- The 4 ASCII bytes of the chunk type `IEND`. -/
def iendType : List ℕ := [0x49, 0x45, 0x4E, 0x44]

/-- The nested `chunk` helper of `_write_png`: 4-byte big-endian data
length, chunk type, data, then the big-endian CRC-32 of type + data. -/
def pngChunk (ty data : List ℕ) : List ℕ :=
  be32 data.length ++ ty ++ data ++ be32 (crc32 (ty ++ data))

/-- The raw scanline buffer of `_write_png`: for each row a filter byte
`0`, then `bytes(pixel)` for each pixel (each channel reduced to a byte,
as `bytes` demands values in `0..255`). -/
def rawScanlines (m : List (List (List ℕ))) : List ℕ :=
  m.flatMap fun row => 0 :: row.flatMap fun px => px.map fun c => c % 256

/-- `_write_png rgb_matrix`, with the zlib compressor abstracted as the
parameter `compress` (it is an external library routine).  Emits the PNG
signature, then the `IHDR`, `IDAT` and `IEND` chunks in that order. -/
def write_png (compress : List ℕ → List ℕ) (m : List (List (List ℕ))) : List ℕ :=
  let height := m.length
  let width := if height ≠ 0 then (m.headD []).length else 0
  pngSignature
    ++ pngChunk ihdrType (be32 width ++ be32 height ++ [8, 2, 0, 0, 0])
    ++ pngChunk idatType (compress (rawScanlines m))
    ++ pngChunk iendType []

/-! ## Student-t distribution (`_student_t_coeff`, `_student_t_pdf`,
`_student_t_cdf`, `_two_tailed_p_value`) -/

/-- `_student_t_coeff df`: the Student-t normalising constant
`exp(lgamma((df+1)/2) - lgamma(df/2) - 0.5*(log df + log π))`.
`math.lgamma x = log |Γ(x)|`, and Mathlib's `Real.log` is the log of the
absolute value, so `Real.log (Real.Gamma z)` embeds `lgamma(z)`. -/
noncomputable def student_t_coeff (df : ℝ) : ℝ :=
  Real.exp (Real.log (Real.Gamma ((df + 1) / 2)) - Real.log (Real.Gamma (df / 2))
    - 0.5 * (Real.log df + Real.log Real.pi))

/-- `_student_t_pdf x df = coeff(df) * (1 + x*x/df) ** (-(df+1)/2)`. -/
noncomputable def student_t_pdf (x df : ℝ) : ℝ :=
  student_t_coeff df * (1 + x * x / df) ^ (-(df + 1) / 2)

/-- The interval count chosen by `_student_t_cdf` for the already
absolute argument: `1000 if x < 10 else 2000`. -/
noncomputable def nIntervalsRaw (x : ℝ) : ℕ :=
  if x < 10 then 1000 else 2000

/-- The interval count after the parity fix-up of `_student_t_cdf`:
`if n_intervals % 2 == 1: n_intervals += 1`. -/
noncomputable def nIntervals (x : ℝ) : ℕ :=
  if nIntervalsRaw x % 2 = 1 then nIntervalsRaw x + 1 else nIntervalsRaw x

/-- The Simpson accumulator `total` of `_student_t_cdf`: endpoint PDF
values plus the 4/2-weighted interior samples at the grid points `i*h`. -/
noncomputable def simpson_total (x df h : ℝ) (n : ℕ) : ℝ :=
  student_t_pdf 0 df + student_t_pdf x df
    + ∑ i in Finset.Ico 1 n, (if i % 2 = 1 then (4 : ℝ) else 2) * student_t_pdf (i * h) df

/-- The value `integral = (h / 3.0) * total` of `_student_t_cdf`, for the
(already absolute) upper integration bound `x`. -/
noncomputable def student_t_integral (x df : ℝ) : ℝ :=
  let n := nIntervals x
  let h := x / n
  h / 3 * simpson_total x df h n

/-- `_student_t_cdf x df`: `0.5` exactly at `x == 0`, otherwise
`0.5 + sign(x) * integral` over `[0, |x|]`, clamped to `[0, 1]`. -/
noncomputable def student_t_cdf (x df : ℝ) : ℝ :=
  if x = 0 then 0.5
  else
    let sign : ℝ := if 0 < x then 1 else -1
    max 0 (min 1 (0.5 + sign * student_t_integral |x| df))

/-- `_two_tailed_p_value t_stat df`: `1.0` when `df ≤ 0`, otherwise
`max(min(2 * min(cdf, 1 - cdf), 1.0), 0.0)`. -/
noncomputable def two_tailed_p_value (tStat df : ℝ) : ℝ :=
  if df ≤ 0 then 1.0
  else
    let cdf := student_t_cdf tStat df
    max (min (2 * min cdf (1 - cdf)) 1.0) 0.0

/-! ## Welch's t-test (`_manual_welchs_ttest`) -/

/-- The error vocabulary of the statistical core.  `insufficientSamples`
embeds the `ValueError("Samples must have at least two observations for a
t-test.")` the spec calls `InsufficientSamples`. -/
inductive TTestError where
  | insufficientSamples : TTestError

/-- `statistics.mean`: the arithmetic mean of a sample. -/
noncomputable def sampleMean (l : List ℝ) : ℝ :=
  l.sum / l.length

/-- `statistics.variance`: the (n−1)-denominator sample variance. -/
noncomputable def sampleVariance (l : List ℝ) : ℝ :=
  (l.map fun x => (x - sampleMean l) ^ 2).sum / ((l.length : ℝ) - 1)

/-- The Welch standard error `se = sqrt(var1/n1 + var2/n2)`. -/
noncomputable def standardError (a b : List ℝ) : ℝ :=
  Real.sqrt (sampleVariance a / a.length + sampleVariance b / b.length)

/-- `_manual_welchs_ttest sample_a sample_b`: rejects samples with fewer
than two observations, returns `(0.0, 1.0)` when the standard error is
zero, and otherwise the Welch t-statistic with its two-tailed p-value at
the Satterthwaite degrees of freedom. -/
noncomputable def manual_welchs_ttest (a b : List ℝ) :
    Except TTestError (ℝ × ℝ) :=
  let n1 := a.length
  let n2 := b.length
  if n1 < 2 ∨ n2 < 2 then .error .insufficientSamples
  else
    let mean1 := sampleMean a
    let mean2 := sampleMean b
    let var1 := sampleVariance a
    let var2 := sampleVariance b
    let se := standardError a b
    if se = 0 then .ok (0.0, 1.0)
    else
      let tStat := (mean1 - mean2) / se
      let numerator := (var1 / n1 + var2 / n2) ^ 2
      let denominator :=
        (var1 / n1) ^ 2 / ((n1 : ℝ) - 1) + (var2 / n2) ^ 2 / ((n2 : ℝ) - 1)
      let df := numerator / denominator
      .ok (tStat, two_tailed_p_value tStat df)

/-! ## Bitmap font and text renderer (`FONT`, `draw_text`) -/

/-- The glyph bound to `" "` in `FONT`: all cells off.  `FONT.get(ch,
FONT[" "])` falls back to this glyph for unsupported characters. -/
def spaceGlyph : List String := ["   ", "   ", "   ", "   ", "   "]

/-- The `FONT` dictionary of `_fallback_plot`: rows of `"1"`/`" "` cells
per supported character, in source order. -/
def FONT : List (Char × List String) :=
  [ ('A', [" 1 ", "1 1", "111", "1 1", "1 1"]),
    ('B', ["11 ", "1 1", "11 ", "1 1", "11 "]),
    ('C', [" 11", "1  ", "1  ", "1  ", " 11"]),
    ('D', ["11 ", "1 1", "1 1", "1 1", "11 "]),
    ('E', ["111", "1  ", "11 ", "1  ", "111"]),
    ('F', ["111", "1  ", "11 ", "1  ", "1  "]),
    ('G', [" 11", "1  ", "1  ", "1 1", " 11"]),
    ('H', ["1 1", "1 1", "111", "1 1", "1 1"]),
    ('I', ["111", " 1 ", " 1 ", " 1 ", "111"]),
    ('K', ["1 1", "11 ", "1  ", "11 ", "1 1"]),
    ('L', ["1  ", "1  ", "1  ", "1  ", "111"]),
    ('M', ["1 1", "111", "111", "1 1", "1 1"]),
    ('N', ["1 1", "111", "111", "111", "1 1"]),
    ('O', ["111", "1 1", "1 1", "1 1", "111"]),
    ('P', ["111", "1 1", "111", "1  ", "1  "]),
    ('R', ["111", "1 1", "111", "11 ", "1 1"]),
    ('S', [" 11", "1  ", "111", "  1", "11 "]),
    ('T', ["111", " 1 ", " 1 ", " 1 ", " 1 "]),
    ('U', ["1 1", "1 1", "1 1", "1 1", "111"]),
    ('V', ["1 1", "1 1", "1 1", "1 1", " 1 "]),
    ('Z', ["111", "  1", " 1 ", "1  ", "111"]),
    (' ', spaceGlyph),
    ('(', [" 1", "1 ", "1 ", "1 ", " 1"]),
    (')', ["1 ", " 1", " 1", " 1", "1 "]),
    ('-', ["   ", "   ", "111", "   ", "   "]),
    ('=', ["   ", "111", "   ", "111", "   "]),
    (':', ["   ", " 1 ", "   ", " 1 ", "   "]),
    ('0', ["111", "1 1", "1 1", "1 1", "111"]),
    ('1', [" 1 ", "11 ", " 1 ", " 1 ", "111"]),
    ('2', ["111", "  1", "111", "1  ", "111"]),
    ('3', ["111", "  1", "111", "  1", "111"]),
    ('4', ["1 1", "1 1", "111", "  1", "  1"]),
    ('5', ["111", "1  ", "111", "  1", "111"]),
    ('6', ["111", "1  ", "111", "1 1", "111"]),
    ('7', ["111", "  1", " 1 ", " 1 ", " 1 "]),
    ('8', ["111", "1 1", "111", "1 1", "111"]),
    ('9', ["111", "1 1", "111", "  1", "111"]),
    ('.', ["   ", "   ", "   ", "   ", " 1 "]),
    (',', ["   ", "   ", "   ", " 1 ", " 1 "]) ]

/-- `FONT.get(ch, FONT[" "])`: the glyph used for a (already upper-cased)
character, falling back to the blank glyph. -/
def glyphFor (ch : Char) : List String :=
  (FONT.lookup ch).getD spaceGlyph

/-- An RGB pixel as the source stores it: a list of channel values. -/
abbrev Color := List ℕ

/-- `canvas[py][px] = [r, g, b]`: functional update of one pixel. -/
def setPixel (canvas : List (List Color)) (py px : ℕ) (col : Color) :
    List (List Color) :=
  canvas.set py ((canvas.getD py []).set px col)

/-- The glyph-stamping loops of `draw_text`: for every `"1"` cell at
`(gx, gy)` write `color` to `(x+gx, y+gy)` when inside the
`width × height` bounds, else skip it. -/
def drawGlyph (width height : ℤ) (col : Color) (glyph : List String)
    (x y : ℤ) (canvas0 : List (List Color)) : List (List Color) :=
  glyph.enum.foldl
    (fun canvas gyRow =>
      gyRow.2.toList.enum.foldl
        (fun canvas2 gxVal =>
          if gxVal.2 = '1' then
            let px := x + gxVal.1
            let py := y + gyRow.1
            if 0 ≤ px ∧ px < width ∧ 0 ≤ py ∧ py < height then
              setPixel canvas2 py.toNat px.toNat col
            else canvas2
          else canvas2)
        canvas)
    canvas0

/-- The character loop of `draw_text` on the already upper-cased
characters, returning the canvas together with the final cursor `x`
(each step advances by `len(glyph[0]) + 1`). -/
def drawTextAux (width height : ℤ) (col : Color) (y : ℤ) :
    List Char → ℤ → List (List Color) → List (List Color) × ℤ
  | [], x, canvas => (canvas, x)
  | ch :: rest, x, canvas =>
      let glyph := glyphFor ch
      let canvas2 := drawGlyph width height col glyph x y canvas
      drawTextAux width height col y rest
        (x + ((glyph.headD "").length + 1 : ℕ)) canvas2

/-- `draw_text text x y color`: upper-case the text, then stamp each
character's glyph left to right. -/
def draw_text (width height : ℤ) (canvas : List (List Color))
    (text : String) (x y : ℤ) (col : Color) : List (List Color) :=
  (drawTextAux width height col y (text.toList.map Char.toUpper) x canvas).1

/-! ## Theorems -/

/-- C10: the Simpson interval count chosen in the Student-t CDF is 1000
or 2000, both even, so the odd-count fix-up branch never changes it: the
integration always runs with exactly 1000 or exactly 2000 subintervals. -/
theorem nIntervals_already_even (x : ℝ) :
    nIntervals x = nIntervalsRaw x ∧
      (nIntervalsRaw x = 1000 ∨ nIntervalsRaw x = 2000) := by
  unfold nIntervals nIntervalsRaw
  by_cases h : x < 10 <;> simp [h]

/-- C3: when either sample has fewer than two observations, the Welch
t-test computation fails with the `InsufficientSamples` error and
produces no `(statistic, p_value)` record. -/
theorem welch_insufficient_samples (a b : List ℝ)
    (h : a.length < 2 ∨ b.length < 2) :
    manual_welchs_ttest a b = .error .insufficientSamples := by
  simp only [manual_welchs_ttest]
  rw [if_pos h]

/-- Witness for C3 at the spec's own example `A = [1.0]`, `B = [1, 2]`. -/
theorem welch_insufficient_samples_witness :
    ([(1 : ℝ)].length < 2 ∨ [(1 : ℝ), 2].length < 2) ∧
      manual_welchs_ttest [1] [1, 2] = .error .insufficientSamples :=
  ⟨Or.inl (by norm_num),
    welch_insufficient_samples [1] [1, 2] (Or.inl (by norm_num))⟩

/-- C2 (failing input): on a height-0 canvas the PNG writer raises no
error at all; it silently emits a complete stream whose IHDR declares
width 0 and height 0 — a zero-dimension image, invalid per the PNG
standard — contradicting the required explicit failure. -/
theorem write_png_zero_area_emits_stream (compress : List ℕ → List ℕ) :
    write_png compress [] =
      pngSignature
        ++ pngChunk ihdrType (be32 0 ++ be32 0 ++ [8, 2, 0, 0, 0])
        ++ pngChunk idatType (compress [])
        ++ pngChunk iendType [] := by
  rfl

/-- Clamping to `[0, 1]` commutes with reflecting around `1/2`: the two
clamped values `0.5 ∓ u` always sum to 1, whatever the sign or size of
the integral `u`. -/
lemma clamp_symm (u : ℝ) :
    max 0 (min 1 (0.5 + -1 * u)) = 1 - max 0 (min 1 (0.5 + 1 * u)) := by
  simp only [max_def, min_def]
  split_ifs <;> linarith

/-- The Student-t CDF is exactly antisymmetric around `x = 0`: negating
the argument flips sign in `0.5 + sign * integral` over the same
integral, and clamping preserves the complement. -/
lemma student_t_cdf_neg (x df : ℝ) :
    student_t_cdf (-x) df = 1 - student_t_cdf x df := by
  by_cases hx : x = 0
  · subst hx
    norm_num [student_t_cdf]
  · have hnx : -x ≠ 0 := neg_ne_zero.mpr hx
    simp only [student_t_cdf, if_neg hx, if_neg hnx, abs_neg]
    rcases lt_trichotomy x 0 with h | h | h
    · have h1 : ¬0 < x := not_lt.mpr h.le
      have h2 : 0 < -x := neg_pos.mpr h
      rw [if_pos h2, if_neg h1]
      linarith [clamp_symm (student_t_integral |x| df)]
    · exact absurd h hx
    · have h1 : 0 < x := h
      have h2 : ¬0 < -x := not_lt.mpr (neg_nonpos_of_nonneg h.le)
      rw [if_neg h2, if_pos h1]
      exact clamp_symm (student_t_integral |x| df)

/-- C6: for every real `x` and `df > 0` the Student-t CDF satisfies
`cdf(-x, df) ≈ 1 - cdf(x, df)` within the 1e-6 integration tolerance
(the embedding gives the relation exactly), and `cdf(0, df) = 0.5`
exactly. -/
theorem student_t_cdf_symmetry (x df : ℝ) (hdf : 0 < df) :
    |student_t_cdf (-x) df - (1 - student_t_cdf x df)| ≤ 1e-6 ∧
      student_t_cdf 0 df = 0.5 := by
  refine ⟨?_, by simp [student_t_cdf]⟩
  rw [student_t_cdf_neg, sub_self, abs_zero]
  norm_num

/-- Witness for C6 at `x = 1`, `df = 3`. -/
theorem student_t_cdf_symmetry_witness :
    (0 : ℝ) < 3 ∧
      (|student_t_cdf (-1) 3 - (1 - student_t_cdf 1 3)| ≤ 1e-6 ∧
        student_t_cdf 0 3 = 0.5) :=
  ⟨by norm_num, student_t_cdf_symmetry 1 3 (by norm_num)⟩

/-- C9: for `df > 0` the two-tailed p-value depends only on the size of
the statistic, not its sign: `min(c, 1-c)` is invariant under the CDF
complement `c ↦ 1 - c` that negating the statistic induces. -/
theorem two_tailed_p_value_sign_symmetric (t df : ℝ) (hdf : 0 < df) :
    two_tailed_p_value t df = two_tailed_p_value (-t) df := by
  have hn : ¬df ≤ 0 := not_le.mpr hdf
  simp only [two_tailed_p_value, if_neg hn]
  rw [student_t_cdf_neg]
  have hc : 1 - (1 - student_t_cdf t df) = student_t_cdf t df := by ring
  rw [hc, min_comm (1 - student_t_cdf t df) (student_t_cdf t df)]

/-- Witness for C9 at `t = 1`, `df = 3`. -/
theorem two_tailed_p_value_sign_symmetric_witness :
    (0 : ℝ) < 3 ∧ two_tailed_p_value 1 3 = two_tailed_p_value (-1) 3 :=
  ⟨by norm_num, two_tailed_p_value_sign_symmetric 1 3 (by norm_num)⟩

/-- At a zero statistic the two-tailed p-value is 1 for every `df`:
either the `df ≤ 0` guard fires, or `cdf(0) = 0.5` makes
`2 * min(c, 1-c) = 1`. -/
lemma two_tailed_p_value_zero (df : ℝ) : two_tailed_p_value 0 df = 1 := by
  simp only [two_tailed_p_value]
  by_cases h : df ≤ 0
  · rw [if_pos h]
    norm_num
  · rw [if_neg h]
    have hc : student_t_cdf 0 df = 0.5 := by simp [student_t_cdf]
    rw [hc]
    norm_num

/-- C5: when both samples have at least two observations and the Welch
standard error `sqrt(var_a/n_a + var_b/n_b)` is zero, the test returns
`(statistic, p_value) = (0.0, 1.0)` without error, never dividing by the
standard error. -/
theorem welch_zero_se (a b : List ℝ) (ha : 2 ≤ a.length) (hb : 2 ≤ b.length)
    (hse : standardError a b = 0) :
    manual_welchs_ttest a b = .ok (0.0, 1.0) := by
  have h : ¬(a.length < 2 ∨ b.length < 2) := by
    push_neg
    exact ⟨ha, hb⟩
  simp only [manual_welchs_ttest]
  rw [if_neg h, if_pos hse]

/-- Witness for C5 on the zero-variance samples `[1, 1]` and `[1, 1]`. -/
theorem welch_zero_se_witness :
    (2 ≤ [(1 : ℝ), 1].length ∧ standardError [(1 : ℝ), 1] [1, 1] = 0) ∧
      manual_welchs_ttest [(1 : ℝ), 1] [1, 1] = .ok (0.0, 1.0) :=
  ⟨⟨by norm_num, by norm_num [standardError, sampleVariance, sampleMean]⟩,
    welch_zero_se [1, 1] [1, 1] (by norm_num) (by norm_num)
      (by norm_num [standardError, sampleVariance, sampleMean])⟩

/-- C4: running the Welch t-test on two identical samples of at least two
observations yields statistic 0.0 and p-value 1.0, through the `se == 0`
fallback when the variance vanishes, and through `t_stat = 0` with
`cdf(0) = 0.5` otherwise. -/
theorem welch_identical_samples (a : List ℝ) (ha : 2 ≤ a.length) :
    manual_welchs_ttest a a = .ok (0.0, 1.0) := by
  have h : ¬(a.length < 2 ∨ a.length < 2) := by
    push_neg
    exact ⟨ha, ha⟩
  simp only [manual_welchs_ttest]
  rw [if_neg h]
  by_cases hse : standardError a a = 0
  · rw [if_pos hse]
  · rw [if_neg hse]
    have ht : (sampleMean a - sampleMean a) / standardError a a = 0 := by
      rw [sub_self, zero_div]
    rw [ht, two_tailed_p_value_zero]
    norm_num

/-- Witness for C4 on the positive-variance sample `[0, 1]`. -/
theorem welch_identical_samples_witness :
    2 ≤ [(0 : ℝ), 1].length ∧
      manual_welchs_ttest [(0 : ℝ), 1] [0, 1] = .ok (0.0, 1.0) :=
  ⟨by norm_num, welch_identical_samples [0, 1] (by norm_num)⟩

/-- C7 (counterexample): the claim that every glyph is 3 cells wide fails
at the supported character `'('`, whose glyph rows are 2 cells wide. -/
theorem font_paren_glyph_two_wide :
    FONT.lookup '(' = some [" 1", "1 ", "1 ", "1 ", " 1"] ∧
      (((FONT.lookup '(').getD spaceGlyph).all fun r => r.length == 3) = false := by
  constructor
  · decide
  · decide

/-- C7 (amended): every glyph in `FONT` is 5 rows tall with uniform row
width — 3 cells wide for every character except `'('` and `')'`, whose
glyphs are 2 cells wide — and the font designates the all-off glyph of
`' '` as the fallback for characters absent from the mapping. -/
theorem font_glyph_dimensions :
    (FONT.all fun p =>
        p.2.length == 5 &&
          p.2.all fun r => r.length == (if p.1 = '(' ∨ p.1 = ')' then 2 else 3)) = true ∧
      FONT.lookup ' ' = some spaceGlyph ∧
      (spaceGlyph.all fun r => r.toList.all fun c => c != '1') = true ∧
      ∀ ch : Char, (FONT.lookup ch).isNone = true → glyphFor ch = spaceGlyph := by
  refine ⟨by decide, by decide, by decide, ?_⟩
  intro ch hch
  unfold glyphFor
  rw [Option.isNone_iff_eq_none.mp hch]
  rfl

/-- Witness for the fallback clause of the amended C7 at the unsupported
character `'@'`. -/
theorem font_glyph_dimensions_witness :
    (FONT.lookup '@').isNone = true ∧ glyphFor '@' = spaceGlyph :=
  ⟨by decide, font_glyph_dimensions.2.2.2 '@' (by decide)⟩

/-- Replace a character whose upper-case form is absent from `FONT` by
the blank-mapped `' '`; keep supported characters. -/
def sanitizeChar (ch : Char) : Char :=
  if (FONT.lookup ch.toUpper).isSome then ch else ' '

/-- Unsupported characters draw with exactly the glyph of `' '`: the
`FONT.get` fallback and the `' '` entry agree. -/
lemma glyphFor_toUpper_sanitize (ch : Char) :
    glyphFor (sanitizeChar ch).toUpper = glyphFor ch.toUpper := by
  unfold sanitizeChar
  by_cases hs : (FONT.lookup ch.toUpper).isSome
  · rw [if_pos hs]
  · rw [if_neg hs]
    unfold glyphFor
    rw [Option.not_isSome_iff_eq_none.mp hs]
    decide

/-- The character loop of `draw_text` cannot tell an unsupported
character from `' '`: sanitising the text changes neither the canvas nor
the running cursor. -/
lemma drawTextAux_sanitize (w h : ℤ) (col : Color) (y : ℤ) (l : List Char) :
    ∀ (x : ℤ) (canvas : List (List Color)),
      drawTextAux w h col y (l.map Char.toUpper) x canvas =
        drawTextAux w h col y ((l.map sanitizeChar).map Char.toUpper) x canvas := by
  induction l with
  | nil => intro x canvas; rfl
  | cons ch rest ih =>
      intro x canvas
      simp only [List.map_cons, drawTextAux]
      rw [glyphFor_toUpper_sanitize]
      exact ih _ _

/-- C8: rendering text never fails on a character absent from the font —
the character renders as the blank glyph with the same horizontal advance
as the blank-mapped `' '` in its place, so the rendered canvas and the
positions of all subsequent characters coincide with those for the text
with every unsupported character replaced by `' '`. -/
theorem draw_text_unsupported_as_blank (w h : ℤ) (canvas : List (List Color))
    (text : String) (x y : ℤ) (col : Color) :
    draw_text w h canvas text x y col =
        draw_text w h canvas (String.mk (text.toList.map sanitizeChar)) x y col ∧
      (drawTextAux w h col y (text.toList.map Char.toUpper) x canvas).2 =
        (drawTextAux w h col y
          ((text.toList.map sanitizeChar).map Char.toUpper) x canvas).2 :=
  ⟨congrArg Prod.fst (drawTextAux_sanitize w h col y text.toList x canvas),
    congrArg Prod.snd (drawTextAux_sanitize w h col y text.toList x canvas)⟩

/-- When every channel is already a byte value, `bytes(pixel)` is the
pixel itself: the raw buffer is a filter byte 0 followed by the channel
bytes of each pixel, row by row. -/
lemma rawScanlines_eq_of_bytes (m : List (List (List ℕ)))
    (hm : ∀ row ∈ m, ∀ px ∈ row, ∀ c ∈ px, c < 256) :
    rawScanlines m = m.flatMap fun row => 0 :: row.flatMap id := by
  unfold rawScanlines
  refine List.flatMap_congr fun row hrow => ?_
  congr 1
  refine List.flatMap_congr fun px hp => ?_
  calc (px.map fun c => c % 256)
      = px.map id := List.map_congr_left fun c hc =>
        Nat.mod_eq_of_lt (hm row hrow px hp c hc)
    _ = px := List.map_id px

/-- C1: on a canvas of positive width and height the PNG writer emits the
8-byte signature then exactly the chunks IHDR, IDAT, IEND in order; each
chunk is the 4-byte big-endian length of its data, the 4 ASCII type
bytes, the data, and the big-endian CRC-32 of type + data; the IHDR data
is the big-endian width and height followed by bytes 8, 2, 0, 0, 0; the
IDAT data is the compressed raw buffer of rows each prefixed with filter
byte 0 and holding 3 bytes (R, G, B) per pixel; the IEND data is empty. -/
theorem write_png_chunk_structure (compress : List ℕ → List ℕ)
    (m : List (List (List ℕ))) (w h : ℕ)
    (hh : m.length = h) (hpos : 0 < h) (hw : 0 < w)
    (hw32 : w < 2 ^ 32) (hh32 : h < 2 ^ 32)
    (hrows : ∀ row ∈ m, row.length = w)
    (hpx : ∀ row ∈ m, ∀ px ∈ row, px.length = 3 ∧ ∀ c ∈ px, c < 256) :
    write_png compress m =
      pngSignature ++
        (be32 13 ++ ihdrType ++ (be32 w ++ be32 h ++ [8, 2, 0, 0, 0]) ++
          be32 (crc32 (ihdrType ++ (be32 w ++ be32 h ++ [8, 2, 0, 0, 0])))) ++
        (be32 (compress (m.flatMap fun row => 0 :: row.flatMap id)).length ++
          idatType ++ compress (m.flatMap fun row => 0 :: row.flatMap id) ++
          be32 (crc32 (idatType ++
            compress (m.flatMap fun row => 0 :: row.flatMap id)))) ++
        (be32 0 ++ iendType ++ be32 (crc32 iendType)) := by
  have hne : m.length ≠ 0 := by omega
  have hraw := rawScanlines_eq_of_bytes m fun row hr px hp =>
    (hpx row hr px hp).2
  have hwidth : (m.headD []).length = w := by
    cases m with
    | nil => simp at hh; omega
    | cons r rest => exact hrows r (List.mem_cons_self r rest)
  have hlen13 : (be32 w ++ be32 h ++ [8, 2, 0, 0, 0]).length = 13 := by
    simp [be32]
  simp only [write_png]
  rw [if_pos hne, hwidth, hh, hraw]
  simp only [pngChunk, hlen13, List.length_nil, List.append_nil]

/-- Witness for C1 on a 1-by-1 canvas holding a single red pixel, with
the identity as the compression function. -/
theorem write_png_chunk_structure_witness :
    0 < 1 ∧
      write_png id [[[255, 0, 0]]] =
        pngSignature ++
          (be32 13 ++ ihdrType ++ (be32 1 ++ be32 1 ++ [8, 2, 0, 0, 0]) ++
            be32 (crc32 (ihdrType ++ (be32 1 ++ be32 1 ++ [8, 2, 0, 0, 0])))) ++
          (be32 (id ([[[255, 0, 0]]].flatMap fun row =>
              (0 : ℕ) :: row.flatMap id)).length ++
            idatType ++ id ([[[255, 0, 0]]].flatMap fun row =>
              (0 : ℕ) :: row.flatMap id) ++
            be32 (crc32 (idatType ++
              id ([[[255, 0, 0]]].flatMap fun row =>
                (0 : ℕ) :: row.flatMap id)))) ++
          (be32 0 ++ iendType ++ be32 (crc32 iendType)) :=
  ⟨by norm_num,
    write_png_chunk_structure id [[[255, 0, 0]]] 1 1 rfl (by norm_num)
      (by norm_num) (by norm_num) (by norm_num) (by decide) (by decide)⟩

end FeatureRollout
